import Mathlib

/-!
Verification of the QueryBuddy single-page app (`src/app.py`): a shallow
embedding of its database-configuration function (`configure_db`), its
Streamlit session-state machine (readiness flag, chat transcript, one
script rerun per user interaction), and the resource cache declared by
the `st.cache_resource` decorator, together with theorems settling the
specification's claims about them.
-/

namespace QueryBuddy

/-! ## Constants from `src/app.py` (lines 17-20) -/

def LOCALDB : String := "USE_LOCALDB"

def MYSQL : String := "USE_MYSQL"

def SUPABASE : String := "USE_SUPABASE"

/-! ## User-visible message strings emitted by the script -/

def apiKeyWarningMsg : String := "Please enter your Groq API key to proceed."

def llmErrorMsg : String := "Failed to initialize Groq LLM. Check your API key or model name."

def uploadWarningMsg : String := "Please upload a SQLite database file."

def mysqlErrorMsg : String := "Please provide all MySQL connection details."

def supabaseErrorMsg : String := "Please provide the full Supabase PostgreSQL URI."

def agentSetupErrorMsg : String := "Failed to initialize LangChain agent or toolkit."

def queryErrorMsg : String := "Something went wrong while processing your query."

/-! ## Python truthiness -/

/-- Python truthiness of an optional string value: `None` and the empty
string are falsy, any non-empty string is truthy.  This is the test
performed by `not all([...])` (line 99) and `not supabase_uri`
(line 105) of `src/app.py`. -/
def pyTruthy : Option String → Bool
  | Option.none => false
  | Option.some s => !(s == "")

/-! ## Database handles -/

/-- Result of `sqlite3.connect(target, uri=uri)` (line 95): we record the
connect string and the `uri` flag. -/
structure Sqlite3Connection where
  target : String
  uriFlag : Bool
deriving DecidableEq

/-- An sqlite3 connection is opened read-only when the `uri` flag is set
and the connect string carries the query parameter `mode=ro`
(sqlite URI-filename semantics). -/
def Sqlite3Connection.readOnly (c : Sqlite3Connection) : Prop :=
  c.uriFlag = true ∧ ∃ p, c.target = "file:" ++ p ++ "?mode=ro"

/-- A SQLAlchemy engine as built by `configure_db`: either the in-memory
sqlite dialect with a custom connection `creator` (line 96), or an engine
opened directly from a connection URL (lines 102 and 108). -/
inductive Engine
  | sqliteCreator (conn : Sqlite3Connection)
  | fromUrl (url : String)
deriving DecidableEq

/-- The `SQLDatabase` handle wrapping an engine (langchain's wrapper is
opaque; only the engine it was built over matters here). -/
structure SQLDatabase where
  engine : Engine
deriving DecidableEq

/-! ## `configure_db` (lines 78-113) -/

/-- The argument tuple of `configure_db`, which is also its memoization
key under `st.cache_resource`.  `uploaded_file` carries the uploaded
file's bytes when a file is present. -/
structure ConfigInput where
  db_uri : String
  uploaded_file : Option (List Nat)
  mysql_host : Option String
  mysql_user : Option String
  mysql_password : Option String
  mysql_db : Option String
  supabase_uri : Option String
deriving DecidableEq

/-- Outcome of one run of the body of `configure_db`:
`handle` is a normal return; `stopWarn` is `st.warning(msg)` followed by
`st.stop()` (lines 88-89); `stopError` is `st.error(msg)` followed by
`st.stop()` (lines 100-101, 106-107); `pyNone` is the implicit Python
`return None` reached when every branch is skipped. -/
inductive ConfigOutcome
  | handle (db : SQLDatabase)
  | stopWarn (msg : String)
  | stopError (msg : String)
  | pyNone
deriving DecidableEq

/-- `tempfile.NamedTemporaryFile(delete=False, suffix=".db")` (line 91)
chooses a fresh OS path for the uploaded bytes; no claim depends on the
name, so the path is modelled as a deterministic function of the
content. -/
def temp_db_path (_bytes : List Nat) : String := "/tmp/upload.db"

/-- Shallow embedding of `configure_db` (src/app.py lines 79-113).
The `except` clause at line 110 catches driver failures of the real
`create_engine`/`SQLDatabase` calls; engine construction is pure in this
embedding, so that clause has no reachable counterpart.  `st.stop()`
raises Streamlit's script-control exception (a `BaseException`, not
caught by `except Exception`), ending the rerun. -/
def configure_db (i : ConfigInput) : ConfigOutcome :=
  if i.db_uri = LOCALDB then
    match i.uploaded_file with
    | Option.none => ConfigOutcome.stopWarn uploadWarningMsg
    | Option.some bytes =>
        ConfigOutcome.handle
          ⟨Engine.sqliteCreator
            ⟨"file:" ++ temp_db_path bytes ++ "?mode=ro", true⟩⟩
  else if i.db_uri = MYSQL then
    if pyTruthy i.mysql_host && pyTruthy i.mysql_user &&
        pyTruthy i.mysql_password && pyTruthy i.mysql_db then
      ConfigOutcome.handle
        ⟨Engine.fromUrl
          ("mysql+mysqlconnector://" ++ i.mysql_user.getD "" ++ ":" ++
            i.mysql_password.getD "" ++ "@" ++ i.mysql_host.getD "" ++ "/" ++
            i.mysql_db.getD "")⟩
    else ConfigOutcome.stopError mysqlErrorMsg
  else if i.db_uri = SUPABASE then
    if pyTruthy i.supabase_uri then
      ConfigOutcome.handle ⟨Engine.fromUrl (i.supabase_uri.getD "")⟩
    else ConfigOutcome.stopError supabaseErrorMsg
  else ConfigOutcome.pyNone

/-! ## Session state and the script rerun (Streamlit model)

Streamlit re-executes the whole of `src/app.py` on every user
interaction; `st.session_state` is the only state that survives a rerun
and is private to one browser session.  One rerun is modelled as a
function from the surviving session state plus that rerun's widget
values and external-call outcomes to an updated state and the
user-visible output of the rerun. -/

/-- One entry of `st.session_state.messages`: a dict with string `role`
and `content` fields (lines 139, 147, 154). -/
structure Message where
  role : String
  content : String
deriving DecidableEq

/-- The seeded greeting entry (line 139). -/
def seedMessage : Message := ⟨"assistant", "How can I help you?"⟩

/-- The per-session `st.session_state`: `chat_ready` (line 55) and
`messages` (line 138), each absent (`Option.none`) until the script
first assigns it. -/
structure SessionState where
  chat_ready : Option Bool
  messages : Option (List Message)
deriving DecidableEq

/-- A brand-new session: no key of `st.session_state` is set yet. -/
def freshSession : SessionState := ⟨Option.none, Option.none⟩

/-- The sidebar radio choice (lines 22-26). -/
inductive DbChoice
  | sqlite
  | mysql
  | supabase
deriving DecidableEq

/-- Outcome of the external `agent.run` call (line 153): the final
answer string, or the exception caught at line 156. -/
inductive AgentOutcome
  | ok (answer : String)
  | err (detail : String)
deriving DecidableEq

/-- Everything one rerun of the script reads from the outside world:
the sidebar widget values (lines 29-53), whether the Start and Clear
buttons were clicked this rerun, the chat input (line 144), and the
outcomes of the external LLM, agent-setup and agent-run calls. -/
structure RerunInput where
  choice : DbChoice
  uploadedFile : Option (List Nat)
  mysqlHost : String
  mysqlUser : String
  mysqlPassword : String
  mysqlDb : String
  supabaseUri : String
  apiKey : String
  startClicked : Bool
  llmOk : Bool
  agentSetupOk : Bool
  clearClicked : Bool
  userQuery : Option String
  agentResult : AgentOutcome
deriving DecidableEq

/-- The `configure_db` call of lines 116-121: each branch passes only its
mode's keyword arguments, the rest keep their `None` defaults. -/
def sidebarConfig (i : RerunInput) : ConfigInput :=
  match i.choice with
  | DbChoice.mysql =>
      ⟨MYSQL, Option.none, Option.some i.mysqlHost, Option.some i.mysqlUser,
        Option.some i.mysqlPassword, Option.some i.mysqlDb, Option.none⟩
  | DbChoice.supabase =>
      ⟨SUPABASE, Option.none, Option.none, Option.none, Option.none,
        Option.none, Option.some i.supabaseUri⟩
  | DbChoice.sqlite =>
      ⟨LOCALDB, i.uploadedFile, Option.none, Option.none, Option.none,
        Option.none, Option.none⟩

/-- Value of `st.session_state.chat_ready` after lines 55-63: it is
initialized to `false` if absent, and set to `true` when the Start
button (only rendered while not ready) is clicked with a non-empty API
key. -/
def readyAfterStart (s : SessionState) (i : RerunInput) : Bool :=
  s.chat_ready.getD false ||
    (!(s.chat_ready.getD false) && i.startClicked && !(i.apiKey == ""))

/-- Warning emitted by line 63 when Start is clicked without an API
key. -/
def startWarnings (s : SessionState) (i : RerunInput) : List String :=
  if !(s.chat_ready.getD false) && i.startClicked && (i.apiKey == "") then
    [apiKeyWarningMsg]
  else []

/-- The transcript displayed by lines 138-142: seeded with the greeting
when `messages` is absent or when Clear was clicked, otherwise the
stored transcript.  (When `messages` is absent the Python `or`
short-circuits and the Clear button is not even rendered; the result is
the seeded list either way.) -/
def displayedMessages (prev : Option (List Message)) (clear : Bool) :
    List Message :=
  match prev with
  | Option.none => [seedMessage]
  | Option.some l => if clear then [seedMessage] else l

/-- The chat turn of lines 146-158: no input leaves the transcript
as displayed; a query appends the user entry, then on success appends
the assistant entry, and on failure reports the error (line 157) and
appends nothing further.  Returns the new transcript and the errors
shown. -/
def turnMessages (base : List Message) (query : Option String)
    (res : AgentOutcome) : List Message × List String :=
  match query with
  | Option.none => (base, [])
  | Option.some q =>
      match res with
      | AgentOutcome.ok ans =>
          (base ++ [⟨"user", q⟩, ⟨"assistant", ans⟩], [])
      | AgentOutcome.err _ => (base ++ [⟨"user", q⟩], [queryErrorMsg])

/-- Result of one rerun: the surviving session state, the warnings and
errors shown, whether the rerun was halted by `st.stop()`, and whether
`create_sql_agent` (lines 126-131) ran to completion this rerun. -/
structure RerunResult where
  state : SessionState
  warnings : List String
  errors : List String
  stopped : Bool
  agentBuilt : Bool
deriving DecidableEq

/-- Shallow embedding of one top-to-bottom rerun of `src/app.py`
(lines 29-158) from session state `s` with widget values and external
outcomes `i`.  The `ConfigOutcome.pyNone` case cannot arise from
`sidebarConfig` (the radio has exactly three options); it is mapped to
the agent-setup failure path that `db = None` would produce at
lines 124-135. -/
def runScript (s : SessionState) (i : RerunInput) : RerunResult :=
  if i.apiKey == "" || !(readyAfterStart s i) then
    ⟨⟨Option.some (readyAfterStart s i), s.messages⟩,
      startWarnings s i, [], true, false⟩
  else if !i.llmOk then
    ⟨⟨Option.some (readyAfterStart s i), s.messages⟩,
      startWarnings s i, [llmErrorMsg], true, false⟩
  else
    match configure_db (sidebarConfig i) with
    | ConfigOutcome.stopWarn m =>
        ⟨⟨Option.some (readyAfterStart s i), s.messages⟩,
          startWarnings s i ++ [m], [], true, false⟩
    | ConfigOutcome.stopError m =>
        ⟨⟨Option.some (readyAfterStart s i), s.messages⟩,
          startWarnings s i, [m], true, false⟩
    | ConfigOutcome.pyNone =>
        ⟨⟨Option.some (readyAfterStart s i), s.messages⟩,
          startWarnings s i, [agentSetupErrorMsg], true, false⟩
    | ConfigOutcome.handle _ =>
        if !i.agentSetupOk then
          ⟨⟨Option.some (readyAfterStart s i), s.messages⟩,
            startWarnings s i, [agentSetupErrorMsg], true, false⟩
        else
          ⟨⟨Option.some (readyAfterStart s i),
              Option.some
                (turnMessages (displayedMessages s.messages i.clearClicked)
                  i.userQuery i.agentResult).1⟩,
            startWarnings s i,
            (turnMessages (displayedMessages s.messages i.clearClicked)
              i.userQuery i.agentResult).2,
            false, true⟩

/-- A whole session: the reruns triggered by a list of interactions,
threading `st.session_state` through. -/
def runSession (s : SessionState) : List RerunInput → SessionState
  | [] => s
  | i :: rest => runSession (runScript s i).state rest

/-- How many times the session's reruns constructed the agent binding
(`create_sql_agent`, line 126). -/
def agentBuildCount (s : SessionState) : List RerunInput → Nat
  | [] => 0
  | i :: rest =>
      (if (runScript s i).agentBuilt then 1 else 0) +
        agentBuildCount (runScript s i).state rest

/-- How many of the session's reruns reached the chat surface (were not
halted by `st.stop()`). -/
def reachingReruns (s : SessionState) : List RerunInput → Nat
  | [] => 0
  | i :: rest =>
      (if (runScript s i).stopped then 0 else 1) +
        reachingReruns (runScript s i).state rest

/-- The condition under which a rerun reaches the chat surface of
lines 138-158: non-empty API key, readiness after the Start block, a
successful LLM construction, a handle from `configure_db`, and a
successful agent setup. -/
def reachesChat (s : SessionState) (i : RerunInput) : Bool :=
  !(i.apiKey == "") && readyAfterStart s i && i.llmOk &&
    (match configure_db (sidebarConfig i) with
     | ConfigOutcome.handle _ => true
     | _ => false) && i.agentSetupOk

/-- Well-formedness of the transcript once initialized: it is non-empty
and every entry's role is `user` or `assistant`. -/
def transcriptWF (s : SessionState) : Prop :=
  ∀ l, s.messages = Option.some l →
    l ≠ [] ∧ ∀ m ∈ l, m.role = "user" ∨ m.role = "assistant"

/-! ## The TTL resource cache (line 78)

Modelled from the spec: the memoization performed by the
`@st.cache_resource(ttl="2h")` decorator is implemented by the Streamlit
framework, not by code under `src/`; following the spec's description it
is "an explicit cache keyed by a canonical serialization of
(mode, config), storing (handle, creation timestamp),
checked-and-refreshed on each access", with a 2-hour window. -/

/-- Modelled from the spec: one cache entry of the `st.cache_resource`
store — the argument key, the memoized handle and its creation time (in
seconds). -/
structure CacheEntry where
  key : ConfigInput
  db : SQLDatabase
  storedAt : Nat
deriving DecidableEq

/-- The decorator's `ttl="2h"`, in seconds. -/
def ttlSeconds : Nat := 7200

/-- Modelled from the spec: cache lookup — an entry hits when its key
equals the call's arguments and it is younger than the TTL. -/
def cacheLookup (entries : List CacheEntry) (now : Nat) (k : ConfigInput) :
    Option SQLDatabase :=
  match entries with
  | [] => Option.none
  | e :: rest =>
      if e.key = k ∧ now < e.storedAt + ttlSeconds then Option.some e.db
      else cacheLookup rest now k

/-- Result of one call through the cache wrapper: the outcome, the
updated store, and whether the underlying `configure_db` body ran. -/
structure CachedCall where
  outcome : ConfigOutcome
  entries : List CacheEntry
  invoked : Bool
deriving DecidableEq

/-- Modelled from the spec: `configure_db` as called through
`st.cache_resource` — a hit returns the stored handle without invoking
the body; a miss invokes the body and stores the handle on a normal
return (`st.stop()` aborts the rerun before a value is returned to the
wrapper, so halted calls store nothing). -/
def cachedConfigureDb (entries : List CacheEntry) (now : Nat)
    (k : ConfigInput) : CachedCall :=
  match cacheLookup entries now k with
  | Option.some db => ⟨ConfigOutcome.handle db, entries, false⟩
  | Option.none =>
      match configure_db k with
      | ConfigOutcome.handle db => ⟨ConfigOutcome.handle db, ⟨k, db, now⟩ :: entries, true⟩
      | o => ⟨o, entries, true⟩

/-! ## Concrete example inputs used by witnesses -/

/-- A rerun that starts a fresh session in Supabase mode: Start is
clicked with an API key and a full URI, all external calls succeed, and
no query is submitted. -/
def exInput : RerunInput :=
  ⟨DbChoice.supabase, Option.none, "", "", "", "",
    "postgresql://u:p@h:5432/db", "gsk_key", true, true, true, false,
    Option.none, AgentOutcome.ok "ans"⟩

/-- A later rerun submitting a query that the agent answers. -/
def exQueryOk : RerunInput :=
  { exInput with startClicked := false,
                 userQuery := Option.some "how many rows?",
                 agentResult := AgentOutcome.ok "42" }

/-- A later rerun submitting a query on which the agent raises. -/
def exQueryErr : RerunInput :=
  { exInput with startClicked := false,
                 userQuery := Option.some "how many rows?",
                 agentResult := AgentOutcome.err "boom" }

/-- A later rerun clicking the Clear button. -/
def exClear : RerunInput :=
  { exInput with startClicked := false, clearClicked := true }

/-- A Start click without an API key. -/
def exNoKey : RerunInput := { exInput with apiKey := "" }

/-- Second query rerun of the counterexample session. -/
def exQ2 : RerunInput :=
  { exInput with startClicked := false,
                 userQuery := Option.some "q2",
                 agentResult := AgentOutcome.ok "a2" }

/-- First query rerun of the counterexample session. -/
def exQ1 : RerunInput :=
  { exInput with startClicked := false,
                 userQuery := Option.some "q1",
                 agentResult := AgentOutcome.ok "a1" }

/-- The cache key of a Supabase-mode `configure_db` call. -/
def exCacheKey : ConfigInput :=
  ⟨SUPABASE, Option.none, Option.none, Option.none, Option.none,
    Option.none, Option.some "postgresql://u:p@h:5432/db"⟩

/-- The handle opened from the example Supabase URI. -/
def exHandle : SQLDatabase := ⟨Engine.fromUrl "postgresql://u:p@h:5432/db"⟩

/-! ## Helper lemmas about `runScript` -/

lemma runScript_agentBuilt (s : SessionState) (i : RerunInput) :
    (runScript s i).agentBuilt = reachesChat s i := by
  unfold runScript reachesChat
  cases hk : i.apiKey == "" <;> cases hr : readyAfterStart s i <;>
    cases hl : i.llmOk <;> cases ha : i.agentSetupOk <;>
      cases hc : configure_db (sidebarConfig i) <;> simp_all

lemma runScript_of_reachesChat (s : SessionState) (i : RerunInput)
    (h : reachesChat s i = true) :
    runScript s i =
      ⟨⟨Option.some (readyAfterStart s i),
          Option.some
            (turnMessages (displayedMessages s.messages i.clearClicked)
              i.userQuery i.agentResult).1⟩,
        startWarnings s i,
        (turnMessages (displayedMessages s.messages i.clearClicked)
          i.userQuery i.agentResult).2,
        false, true⟩ := by
  unfold reachesChat at h
  unfold runScript
  cases hk : i.apiKey == "" <;> cases hr : readyAfterStart s i <;>
    cases hl : i.llmOk <;> cases ha : i.agentSetupOk <;>
      cases hc : configure_db (sidebarConfig i) <;> simp_all

lemma runScript_chatReady (s : SessionState) (i : RerunInput) :
    (runScript s i).state.chat_ready = Option.some (readyAfterStart s i) := by
  unfold runScript
  repeat' split
  all_goals rfl

lemma readyAfterStart_of_ready (s : SessionState) (i : RerunInput)
    (h : s.chat_ready = Option.some true) : readyAfterStart s i = true := by
  simp [readyAfterStart, h]

lemma ready_monotone (s : SessionState) (i : RerunInput)
    (h : s.chat_ready = Option.some true) :
    (runScript s i).state.chat_ready = Option.some true := by
  rw [runScript_chatReady, readyAfterStart_of_ready s i h]

lemma ready_monotone_session (inputs : List RerunInput) (s : SessionState)
    (h : s.chat_ready = Option.some true) :
    (runSession s inputs).chat_ready = Option.some true := by
  induction inputs generalizing s with
  | nil => exact h
  | cons i rest ih => exact ih _ (ready_monotone s i h)

lemma runScript_messages_cases (s : SessionState) (i : RerunInput) :
    (runScript s i).state.messages = s.messages ∨
    (runScript s i).state.messages =
      Option.some
        (turnMessages (displayedMessages s.messages i.clearClicked)
          i.userQuery i.agentResult).1 := by
  unfold runScript
  repeat' split
  all_goals simp

lemma agentBuilt_eq_not_stopped (s : SessionState) (i : RerunInput) :
    (runScript s i).agentBuilt = !(runScript s i).stopped := by
  unfold runScript
  repeat' split
  all_goals rfl

lemma displayedMessages_wf (prev : Option (List Message)) (clear : Bool)
    (h : ∀ l, prev = Option.some l →
      l ≠ [] ∧ ∀ m ∈ l, m.role = "user" ∨ m.role = "assistant") :
    displayedMessages prev clear ≠ [] ∧
    ∀ m ∈ displayedMessages prev clear,
      m.role = "user" ∨ m.role = "assistant" := by
  cases prev with
  | none => simp [displayedMessages, seedMessage]
  | some l =>
      cases clear with
      | true => simp [displayedMessages, seedMessage]
      | false => simpa [displayedMessages] using h l rfl

lemma turnMessages_wf (base : List Message) (query : Option String)
    (res : AgentOutcome) (hne : base ≠ [])
    (hrole : ∀ m ∈ base, m.role = "user" ∨ m.role = "assistant") :
    (turnMessages base query res).1 ≠ [] ∧
    ∀ m ∈ (turnMessages base query res).1,
      m.role = "user" ∨ m.role = "assistant" := by
  cases query with
  | none => exact ⟨hne, hrole⟩
  | some q =>
      cases res with
      | ok ans =>
          refine ⟨by simp [turnMessages], ?_⟩
          intro m hm
          simp [turnMessages] at hm
          rcases hm with hm | hm | hm
          · exact hrole m hm
          · rw [hm]; exact Or.inl rfl
          · rw [hm]; exact Or.inr rfl
      | err e =>
          refine ⟨by simp [turnMessages], ?_⟩
          intro m hm
          simp [turnMessages] at hm
          rcases hm with hm | hm
          · exact hrole m hm
          · rw [hm]; exact Or.inl rfl

lemma transcriptWF_step (s : SessionState) (i : RerunInput)
    (h : transcriptWF s) : transcriptWF (runScript s i).state := by
  intro l hl
  rcases runScript_messages_cases s i with hc | hc
  · exact h l (hc ▸ hl)
  · rw [hc] at hl
    obtain ⟨hb1, hb2⟩ := displayedMessages_wf s.messages i.clearClicked h
    obtain ⟨h1, h2⟩ :=
      turnMessages_wf (displayedMessages s.messages i.clearClicked)
        i.userQuery i.agentResult hb1 hb2
    cases hl
    exact ⟨h1, h2⟩

/-! ## Claim C2 -/

/-- C2: in each of the three connection modes, a missing required
configuration field (LocalFile: no uploaded file; MySQL: any of host,
user, password, database empty or absent; HostedPostgres: URI empty or
absent) makes `configure_db` report a configuration message and halt the
script, producing no `DatabaseHandle`. -/
theorem configure_db_missing_fields_halt :
    (∀ i : ConfigInput, i.db_uri = LOCALDB → i.uploaded_file = Option.none →
      configure_db i = ConfigOutcome.stopWarn uploadWarningMsg) ∧
    (∀ i : ConfigInput, i.db_uri = MYSQL →
      (pyTruthy i.mysql_host = false ∨ pyTruthy i.mysql_user = false ∨
        pyTruthy i.mysql_password = false ∨ pyTruthy i.mysql_db = false) →
      configure_db i = ConfigOutcome.stopError mysqlErrorMsg) ∧
    (∀ i : ConfigInput, i.db_uri = SUPABASE → pyTruthy i.supabase_uri = false →
      configure_db i = ConfigOutcome.stopError supabaseErrorMsg) := by
  refine ⟨?_, ?_, ?_⟩
  · intro i h1 h2
    simp [configure_db, h1, h2]
  · intro i h1 h2
    rcases h2 with h | h | h | h <;>
      simp [configure_db, h1, h, LOCALDB, MYSQL, SUPABASE]
  · intro i h1 h2
    simp [configure_db, h1, h2, LOCALDB, MYSQL, SUPABASE]

/-- Witness for C2: concrete incomplete inputs in each mode. -/
theorem configure_db_missing_fields_halt_witness :
    configure_db ⟨LOCALDB, Option.none, Option.none, Option.none, Option.none,
        Option.none, Option.none⟩ = ConfigOutcome.stopWarn uploadWarningMsg ∧
    configure_db ⟨MYSQL, Option.none, Option.some "h", Option.some "u",
        Option.some "", Option.some "d", Option.none⟩ =
      ConfigOutcome.stopError mysqlErrorMsg ∧
    configure_db ⟨SUPABASE, Option.none, Option.none, Option.none, Option.none,
        Option.none, Option.some ""⟩ = ConfigOutcome.stopError supabaseErrorMsg := by
  refine ⟨?_, ?_, ?_⟩
  · exact configure_db_missing_fields_halt.1 _ rfl rfl
  · exact configure_db_missing_fields_halt.2.1 _ rfl (by decide)
  · exact configure_db_missing_fields_halt.2.2 _ rfl (by decide)

/-! ## Claim C6 -/

/-- C6: in LocalFile mode with a file uploaded, the handle returned by
`configure_db` wraps an engine whose sqlite connection creator opens the
temporary database file with the explicit read-only URI mode `mode=ro`. -/
theorem configure_db_localfile_readonly (i : ConfigInput) (bytes : List Nat)
    (h1 : i.db_uri = LOCALDB) (h2 : i.uploaded_file = Option.some bytes) :
    ∃ conn : Sqlite3Connection,
      configure_db i = ConfigOutcome.handle ⟨Engine.sqliteCreator conn⟩ ∧
      conn.readOnly := by
  refine ⟨⟨"file:" ++ temp_db_path bytes ++ "?mode=ro", true⟩, ?_, ?_⟩
  · simp [configure_db, h1, h2]
  · exact ⟨rfl, temp_db_path bytes, rfl⟩

/-- Witness for C6: a concrete uploaded file. -/
theorem configure_db_localfile_readonly_witness :
    ∃ conn : Sqlite3Connection,
      configure_db ⟨LOCALDB, Option.some [1, 2, 3], Option.none, Option.none,
          Option.none, Option.none, Option.none⟩ =
        ConfigOutcome.handle ⟨Engine.sqliteCreator conn⟩ ∧
      conn.readOnly :=
  configure_db_localfile_readonly _ [1, 2, 3] rfl rfl

/-! ## Claim C10 -/

/-- C10: for a mode value other than the three recognized constants,
`configure_db` skips every branch and returns Python `None`: neither a
handle nor any reported error. -/
theorem configure_db_unrecognized_mode (i : ConfigInput)
    (h1 : i.db_uri ≠ LOCALDB) (h2 : i.db_uri ≠ MYSQL) (h3 : i.db_uri ≠ SUPABASE) :
    configure_db i = ConfigOutcome.pyNone := by
  simp [configure_db, h1, h2, h3]

/-- Witness for C10: the unrecognized mode string "USE_ORACLE". -/
theorem configure_db_unrecognized_mode_witness :
    configure_db ⟨"USE_ORACLE", Option.none, Option.none, Option.none,
        Option.none, Option.none, Option.none⟩ = ConfigOutcome.pyNone :=
  configure_db_unrecognized_mode _ (by decide) (by decide) (by decide)

/-! ## Claim C1 -/

/-- C1: in a rerun that reaches the chat surface with transcript `l`
displayed (no Clear click) and a submitted query, a successful agent
call appends exactly the user entry then the assistant entry, in that
order, with no error and no halt; a failing agent call appends exactly
the user entry, reports the query error inline, and does not halt the
session. -/
theorem chat_turn_appends (s : SessionState) (i : RerunInput)
    (l : List Message) (q : String)
    (hmsgs : s.messages = Option.some l) (hclear : i.clearClicked = false)
    (hq : i.userQuery = Option.some q)
    (hchat : (runScript s i).agentBuilt = true) :
    (∀ ans, i.agentResult = AgentOutcome.ok ans →
      (runScript s i).state.messages =
        Option.some (l ++ [⟨"user", q⟩, ⟨"assistant", ans⟩]) ∧
      (runScript s i).errors = [] ∧ (runScript s i).stopped = false) ∧
    (∀ e, i.agentResult = AgentOutcome.err e →
      (runScript s i).state.messages = Option.some (l ++ [⟨"user", q⟩]) ∧
      (runScript s i).errors = [queryErrorMsg] ∧
      (runScript s i).stopped = false) := by
  rw [runScript_agentBuilt] at hchat
  rw [runScript_of_reachesChat s i hchat]
  constructor
  · intro ans hans
    simp [turnMessages, displayedMessages, hmsgs, hclear, hq, hans]
  · intro e he
    simp [turnMessages, displayedMessages, hmsgs, hclear, hq, he]

/-- Witness for C1: a ready session whose transcript holds the greeting,
one successful and one failing query. -/
theorem chat_turn_appends_witness :
    (runScript ⟨Option.some true, Option.some [seedMessage]⟩
        exQueryOk).state.messages =
      Option.some [seedMessage, ⟨"user", "how many rows?"⟩,
        ⟨"assistant", "42"⟩] ∧
    (runScript ⟨Option.some true, Option.some [seedMessage]⟩
        exQueryErr).state.messages =
      Option.some [seedMessage, ⟨"user", "how many rows?"⟩] := by
  constructor
  · exact ((chat_turn_appends _ exQueryOk [seedMessage] "how many rows?"
      rfl rfl rfl (by decide)).1 "42" rfl).1
  · exact ((chat_turn_appends _ exQueryErr [seedMessage] "how many rows?"
      rfl rfl rfl (by decide)).2 "boom" rfl).1

/-! ## Claim C3 -/

/-- C3: whenever the Clear button is clicked (from any transcript
state), the transcript is reset to exactly the seeded assistant
greeting; and a fresh session's transcript is initialized to exactly
that same single entry. -/
theorem clear_resets_transcript (s : SessionState) (i : RerunInput) :
    (i.clearClicked = true → i.userQuery = Option.none →
      (runScript s i).agentBuilt = true →
      (runScript s i).state.messages = Option.some [seedMessage]) ∧
    (s.messages = Option.none → i.userQuery = Option.none →
      (runScript s i).agentBuilt = true →
      (runScript s i).state.messages = Option.some [seedMessage]) := by
  constructor
  · intro hclear hq hchat
    rw [runScript_agentBuilt] at hchat
    rw [runScript_of_reachesChat s i hchat]
    cases hm : s.messages <;>
      simp [turnMessages, displayedMessages, hm, hclear, hq]
  · intro hm hq hchat
    rw [runScript_agentBuilt] at hchat
    rw [runScript_of_reachesChat s i hchat]
    simp [turnMessages, displayedMessages, hm, hq]

/-- Witness for C3: clearing a two-entry transcript, and the first rerun
of a fresh session. -/
theorem clear_resets_transcript_witness :
    (runScript ⟨Option.some true, Option.some [seedMessage, ⟨"user", "q"⟩]⟩
        exClear).state.messages = Option.some [seedMessage] ∧
    (runScript freshSession exInput).state.messages =
      Option.some [seedMessage] := by
  constructor
  · exact (clear_resets_transcript _ exClear).1 rfl rfl (by decide)
  · exact (clear_resets_transcript freshSession exInput).2 rfl rfl (by decide)

/-! ## Claim C4 -/

/-- C4: the Start trigger turns readiness true only with a non-empty API
key — with an empty key the warning is shown and readiness stays
false — and readiness, once true, survives every further rerun of the
session, whatever its interactions. -/
theorem chat_ready_gating_and_monotone :
    (∀ (s : SessionState) (i : RerunInput), s.chat_ready = Option.some true →
      (runScript s i).state.chat_ready = Option.some true) ∧
    (∀ (inputs : List RerunInput) (s : SessionState),
      s.chat_ready = Option.some true →
      (runSession s inputs).chat_ready = Option.some true) ∧
    (∀ (s : SessionState) (i : RerunInput), s.chat_ready.getD false = false →
      i.startClicked = true → i.apiKey = "" →
      (runScript s i).state.chat_ready = Option.some false ∧
      apiKeyWarningMsg ∈ (runScript s i).warnings) ∧
    (∀ (s : SessionState) (i : RerunInput), s.chat_ready.getD false = false →
      i.startClicked = true → i.apiKey ≠ "" →
      (runScript s i).state.chat_ready = Option.some true) := by
  refine ⟨ready_monotone, ready_monotone_session, ?_, ?_⟩
  · intro s i h1 h2 h3
    have hw : startWarnings s i = [apiKeyWarningMsg] := by
      simp [startWarnings, h1, h2, h3]
    have hr : readyAfterStart s i = false := by
      simp [readyAfterStart, h1, h3]
    constructor
    · rw [runScript_chatReady, hr]
    · simp [runScript, h3, hw]
  · intro s i h1 h2 h3
    have hr : readyAfterStart s i = true := by
      simp [readyAfterStart, h1, h2, h3]
    rw [runScript_chatReady, hr]

/-- Witness for C4: a ready session staying ready, a keyless Start
warning, and a keyed Start succeeding. -/
theorem chat_ready_gating_and_monotone_witness :
    (runScript ⟨Option.some true, Option.none⟩ exInput).state.chat_ready =
      Option.some true ∧
    (runSession ⟨Option.some true, Option.none⟩ [exQueryOk, exClear]).chat_ready =
      Option.some true ∧
    ((runScript freshSession exNoKey).state.chat_ready = Option.some false ∧
      apiKeyWarningMsg ∈ (runScript freshSession exNoKey).warnings) ∧
    (runScript freshSession exInput).state.chat_ready = Option.some true := by
  refine ⟨?_, ?_, ?_, ?_⟩
  · exact chat_ready_gating_and_monotone.1 _ exInput rfl
  · exact chat_ready_gating_and_monotone.2.1 [exQueryOk, exClear] _ rfl
  · exact chat_ready_gating_and_monotone.2.2.1 freshSession exNoKey rfl rfl rfl
  · exact chat_ready_gating_and_monotone.2.2.2 freshSession exInput rfl rfl
      (by decide)

/-! ## Claim C9 -/

/-- C9: well-formedness of the transcript — non-empty with every role
`user` or `assistant` — is preserved by every rerun and hence by every
whole session, for any combination of query, clear and failure
outcomes. -/
theorem transcript_wellformed :
    (∀ (s : SessionState) (i : RerunInput), transcriptWF s →
      transcriptWF (runScript s i).state) ∧
    (∀ (inputs : List RerunInput) (s : SessionState), transcriptWF s →
      transcriptWF (runSession s inputs)) := by
  constructor
  · exact transcriptWF_step
  · intro inputs
    induction inputs with
    | nil => exact fun s h => h
    | cons i rest ih => exact fun s h => ih _ (transcriptWF_step s i h)

/-- Witness for C9: a fresh session through one rerun and through a
whole interaction list. -/
theorem transcript_wellformed_witness :
    transcriptWF (runScript freshSession exInput).state ∧
    transcriptWF (runSession freshSession [exInput, exQueryOk, exQueryErr]) := by
  constructor
  · exact transcript_wellformed.1 freshSession exInput
      (by simp [transcriptWF, freshSession])
  · exact transcript_wellformed.2 [exInput, exQueryOk, exQueryErr] freshSession
      (by simp [transcriptWF, freshSession])

/-! ## Claim C5 -/

/-- C5: a `configure_db` call whose arguments miss the cache invokes the
body and stores the handle; a second call with identical arguments
within the 2-hour window returns that same handle instance without
invoking the body again. -/
theorem cache_returns_same_handle (entries : List CacheEntry) (t1 t2 : Nat)
    (k : ConfigInput) (db : SQLDatabase)
    (hmiss : cacheLookup entries t1 k = Option.none)
    (hdb : configure_db k = ConfigOutcome.handle db)
    (ht : t2 < t1 + ttlSeconds) :
    cachedConfigureDb entries t1 k =
      ⟨ConfigOutcome.handle db, ⟨k, db, t1⟩ :: entries, true⟩ ∧
    cachedConfigureDb (⟨k, db, t1⟩ :: entries) t2 k =
      ⟨ConfigOutcome.handle db, ⟨k, db, t1⟩ :: entries, false⟩ := by
  constructor
  · simp [cachedConfigureDb, hmiss, hdb]
  · simp [cachedConfigureDb, cacheLookup, ht]

/-- Witness for C5: a Supabase handle opened at time 0 and looked up
again one hour later. -/
theorem cache_returns_same_handle_witness :
    cachedConfigureDb [] 0 exCacheKey =
      ⟨ConfigOutcome.handle exHandle, [⟨exCacheKey, exHandle, 0⟩], true⟩ ∧
    cachedConfigureDb [⟨exCacheKey, exHandle, 0⟩] 3600 exCacheKey =
      ⟨ConfigOutcome.handle exHandle, [⟨exCacheKey, exHandle, 0⟩], false⟩ :=
  cache_returns_same_handle [] 0 3600 exCacheKey exHandle rfl (by decide)
    (by decide)

/-! ## Claim C8 -/

/-- C8 counterexample: a session whose Start rerun and two answered
query reruns construct the agent binding three times, not once; the two
queries are nevertheless both answered, each by the agent constructed in
its own rerun. -/
theorem agent_single_construction_counterexample :
    agentBuildCount freshSession [exInput, exQ1, exQ2] = 3 ∧
    (runSession freshSession [exInput, exQ1, exQ2]).messages =
      Option.some [seedMessage, ⟨"user", "q1"⟩, ⟨"assistant", "a1"⟩,
        ⟨"user", "q2"⟩, ⟨"assistant", "a2"⟩] := by
  constructor
  · decide
  · decide

/-- C8 amended: the agent binding is reconstructed on every rerun that
reaches the chat surface — exactly one construction per such rerun,
hence one per query turn — rather than once per session. -/
theorem agent_rebuilt_every_reaching_rerun (inputs : List RerunInput)
    (s : SessionState) :
    agentBuildCount s inputs = reachingReruns s inputs := by
  induction inputs generalizing s with
  | nil => rfl
  | cons i rest ih =>
      unfold agentBuildCount reachingReruns
      rw [ih, agentBuilt_eq_not_stopped]
      cases h : (runScript s i).stopped <;> simp

end QueryBuddy
